import Mathlib

/-!
Verification of the configuration core of `auto_arch.py`.

The Python source is shallowly embedded: strings are Lean `String`s (the
character-classification helpers model Python's `str` predicates over the
ASCII fragment, which covers every value the program manipulates), Python
values that can appear in a profile document are the inductive `PyVal`,
mutation is explicit state passing, and every message pushed onto the global
log queue is returned in emission order as a `List Message`.
-/

namespace AutoArch

/-- Levels of `Message_Level` in the source (`success`/`error`/`warning`/`info`/`verbose`). -/
inductive Message_Level
  | success
  | error
  | warning
  | info
  | verbose
deriving DecidableEq

/-- The `Message` dataclass: raw text plus a level. -/
structure Message where
  raw : String
  level : Message_Level
deriving DecidableEq

/-- The `error` helper: wraps the text as `"  [Error] " + msg + "."` at level error. -/
def errorMsg (msg : String) : Message :=
  Message.mk ("  [Error] " ++ msg ++ ".") Message_Level.error

/-- The `warning` helper: wraps the text as `"[Warning] " + msg + "."` at level warning. -/
def warningMsg (msg : String) : Message :=
  Message.mk ("[Warning] " ++ msg ++ ".") Message_Level.warning

/-- Python values that occur as profile field values and JSON scalars:
strings, integers, booleans and `None`/`null`. -/
inductive PyVal
  | str (s : String)
  | int (i : Int)
  | bool (b : Bool)
  | none
deriving DecidableEq

/-- Python `str(value)` on the values of `PyVal` (`str(True) = "True"`, `str(None) = "None"`). -/
def pyStr : PyVal → String
  | PyVal.str s => s
  | PyVal.int i => toString i
  | PyVal.bool true => "True"
  | PyVal.bool false => "False"
  | PyVal.none => "None"

/-- Python `str.isnumeric`, over the ASCII fragment: non-empty and every
character a decimal digit.  (Full Python additionally accepts non-ASCII
Unicode numeric characters; the program's values are ASCII.) -/
def pyIsNumeric (s : String) : Bool :=
  !s.data.isEmpty && s.data.all Char.isDigit

/-- Python `str.islower`, over the ASCII fragment: at least one cased
character (a letter) and no uppercase letter. -/
def pyIsLower (s : String) : Bool :=
  s.data.any Char.isAlpha && s.data.all (fun c => !c.isUpper)

/-- Python `str.isalnum`, over the ASCII fragment: non-empty and every
character a letter or digit. -/
def pyIsAlnum (s : String) : Bool :=
  !s.data.isEmpty && s.data.all Char.isAlphanum

/-- Python `str.isprintable`, over the ASCII fragment: every character in
the range 0x20..0x7E (the empty string is printable).  In the source this is
only ever used in conjunction with `isascii`, and on that conjunction the
ASCII model agrees with Python on all inputs. -/
def pyIsPrintable (s : String) : Bool :=
  s.data.all (fun c => 0x20 ≤ c.toNat && c.toNat ≤ 0x7E)

/-- Python `str.isascii`: every character below 128 (true for the empty string). -/
def pyIsAscii (s : String) : Bool :=
  s.data.all (fun c => c.toNat < 128)

/-- Python `value.startswith("-")` for a single-character pattern. -/
def pyStartsWith (s : String) (c : Char) : Bool :=
  match s.data with
  | [] => false
  | d :: _ => d = c

/-- Python `value.replace(c, "")`: remove every occurrence of the character `c`. -/
def pyRemoveChar (s : String) (c : Char) : String :=
  String.mk (s.data.filter (fun d => d ≠ c))

/-- A validator maps the string form of a candidate value to a verdict plus
the messages it pushed onto the log queue. -/
abbrev Validator := String → Bool × List Message

/-- `Field.default_validator`: always succeeds, emits nothing. -/
def Field.default_validator : Validator :=
  fun _ => (true, [])

/-- `Field.numeric_validator`: fails with an error message unless `value.isnumeric()`. -/
def Field.numeric_validator : Validator := fun value =>
  if !pyIsNumeric value then
    (false, [errorMsg ("The given value is not numeric: " ++ value)])
  else
    (true, [])

/-- `Field.boot_label_validator`: non-empty, printable, ASCII. -/
def Field.boot_label_validator : Validator := fun value =>
  if value.data.isEmpty then
    (false, [errorMsg "Boot labels must contain at least one character"])
  else if !(pyIsPrintable value && pyIsAscii value) then
    (false, [errorMsg "Boot labels cannot contain non-printable or non-ascii characters"])
  else
    (true, [])

/-- `Field.hostname_validator`: non-empty, at most 64 characters, and after
removing hyphens both `islower` and `isalnum`. -/
def Field.hostname_validator : Validator := fun value =>
  if value.data.isEmpty then
    (false, [errorMsg "Hostnames must contain at least one character"])
  else if value.data.length > 64 then
    (false, [errorMsg "Hostnames cannot be longer than 64 characters"])
  else if !(pyIsLower (pyRemoveChar value '-') && pyIsAlnum (pyRemoveChar value '-')) then
    (false, [errorMsg "Hostnames may only contain lowercase letters, numbers, and hyphens"])
  else
    (true, [])

/-- `Field.name_validator`: non-empty, not entirely numeric, does not start
with a hyphen, at most 32 characters, and alphanumeric after removing
hyphens and underscores. -/
def Field.name_validator : Validator := fun value =>
  if value.data.isEmpty then
    (false, [errorMsg "Names must contain at least one character"])
  else if pyIsNumeric value then
    (false, [errorMsg "Names cannot be entirely numeric"])
  else if pyStartsWith value '-' then
    (false, [errorMsg "Names cannot start with a hyphen"])
  else if value.data.length > 32 then
    (false, [errorMsg "Names cannot be longer than 32 characters"])
  else if !pyIsAlnum (pyRemoveChar (pyRemoveChar value '-') '_') then
    (false, [errorMsg "Names may only contain letters, numbers, underscores, and hyphens"])
  else
    (true, [])

/-- `Field.password_validator`: non-empty, printable, ASCII. -/
def Field.password_validator : Validator := fun value =>
  if value.data.isEmpty then
    (false, [errorMsg "Passwords must contain at least one character"])
  else if !(pyIsPrintable value && pyIsAscii value) then
    (false, [errorMsg "Passwords cannot contain non-printable or non-ascii characters"])
  else
    (true, [])

/-- A `Field` from the source: the stored value `_value` and the validator
`_validator`.  (The `_types` attribute is never consulted by any behavior
and is omitted.) -/
structure Field where
  value : PyVal
  validator : Validator

/-- Result of `Field.set`: the returned boolean, the field afterwards, and
the messages the validator emitted. -/
structure SetResult where
  ok : Bool
  field : Field
  msgs : List Message

/-- `Field.get`. -/
def Field.get (f : Field) : PyVal := f.value

/-- `Field.get_str`: the empty string for `None`, otherwise `str(value)`. -/
def Field.get_str (f : Field) : String :=
  match f.value with
  | PyVal.none => ""
  | v => pyStr v

/-- `Field.set(value)`: run the validator on `str(value)`; on success store
the value and return true; on failure return false leaving the value as it was. -/
def Field.set (f : Field) (v : PyVal) : SetResult :=
  if (f.validator (pyStr v)).1 then
    SetResult.mk true (Field.mk v f.validator) (f.validator (pyStr v)).2
  else
    SetResult.mk false f (f.validator (pyStr v)).2

/-- The ten class attributes of the `Profile` dataclass, i.e. the shared
field objects every `Profile` instance reads. -/
structure ProfileFields where
  network_install : Field
  min_device_bytes : Field
  device : Field
  boot_label : Field
  time_zone : Field
  hostname : Field
  root_password : Field
  username : Field
  user_password : Field
  sudo_group : Field

/-- The class attributes of `Profile` exactly as initialized in the source
(`int(10e9) = 10000000000`). -/
def defaultProfileFields : ProfileFields :=
  ProfileFields.mk
    (Field.mk (PyVal.bool true) Field.default_validator)
    (Field.mk (PyVal.int 10000000000) Field.numeric_validator)
    (Field.mk PyVal.none Field.default_validator)
    (Field.mk (PyVal.str "Arch Linux") Field.boot_label_validator)
    (Field.mk (PyVal.str "America/Denver") Field.default_validator)
    (Field.mk (PyVal.str "arch") Field.hostname_validator)
    (Field.mk (PyVal.str "root") Field.password_validator)
    (Field.mk (PyVal.str "main") Field.name_validator)
    (Field.mk (PyVal.str "main") Field.password_validator)
    (Field.mk (PyVal.str "wheel") Field.name_validator)

/-- Constructing a `Profile()`: the dataclass declares its attributes without
type annotations, so the generated `__init__` takes no arguments and sets no
per-instance attribute; every attribute read on any instance resolves to the
shared class attributes.  Construction therefore returns a view of the class
state unchanged. -/
def Profile.new (classAttrs : ProfileFields) : ProfileFields := classAttrs

/-- Python `hasattr(profile, key)`/`getattr(profile, key)` restricted to the
ten data attributes (keys naming other object attributes such as dunder
methods do not occur in the claims and are outside the model). -/
def ProfileFields.getAttr? (p : ProfileFields) : String → Option Field
  | "network_install" => some p.network_install
  | "min_device_bytes" => some p.min_device_bytes
  | "device" => some p.device
  | "boot_label" => some p.boot_label
  | "time_zone" => some p.time_zone
  | "hostname" => some p.hostname
  | "root_password" => some p.root_password
  | "username" => some p.username
  | "user_password" => some p.user_password
  | "sudo_group" => some p.sudo_group
  | _ => Option.none

/-- Writing a field object back under its name (`setattr` in the source). -/
def ProfileFields.setAttr (p : ProfileFields) (key : String) (f : Field) : ProfileFields :=
  if key = "network_install" then { p with network_install := f }
  else if key = "min_device_bytes" then { p with min_device_bytes := f }
  else if key = "device" then { p with device := f }
  else if key = "boot_label" then { p with boot_label := f }
  else if key = "time_zone" then { p with time_zone := f }
  else if key = "hostname" then { p with hostname := f }
  else if key = "root_password" then { p with root_password := f }
  else if key = "username" then { p with username := f }
  else if key = "user_password" then { p with user_password := f }
  else if key = "sudo_group" then { p with sudo_group := f }
  else p

/-- The annotated dataclass fields of `Profile`: the class declares all ten
attributes as plain assignments without type annotations, so the dataclass
machinery records no fields at all and `dataclasses.asdict` returns the
empty mapping. -/
def profileDataclassFields : List String := []

/-- `dataclasses.asdict(profile)`: one entry per annotated dataclass field. -/
def asdict_Profile (p : ProfileFields) : List (String × Field) :=
  profileDataclassFields.filterMap (fun k => (p.getAttr? k).map (fun f => (k, f)))

/-- `dump_profile`: build the JSON document with `value.get()` for each entry
of `asdict(profile)` (writing it to disk is outside the model). -/
def dump_profile (p : ProfileFields) : List (String × PyVal) :=
  (asdict_Profile p).map (fun kv => (kv.1, kv.2.get))

/-- Result of `load_profile`: the shared class field state afterwards,
whether a `Profile` was returned (`ok = false` models `return None`), and
the messages emitted, in emission order. -/
structure LoadResult where
  fields : ProfileFields
  ok : Bool
  msgs : List Message

/-- The per-key loop of `load_profile`.  A known key attempts `field.set`;
when `set` fails the source builds a warning by concatenating the raw value
into a string, which raises `TypeError` unless the value is a `str` — the
raise is caught by the surrounding `except`, which emits the load-failure
error and returns `None`.  An unknown key gets a warning and is skipped. -/
def loadItems (path : String) (p : ProfileFields) (msgs : List Message) :
    List (String × PyVal) → LoadResult
  | [] => LoadResult.mk p true msgs
  | (key, v) :: rest =>
    match p.getAttr? key with
    | some f =>
      let r := f.set v
      if r.ok then
        loadItems path (p.setAttr key r.field) (msgs ++ r.msgs) rest
      else
        match v with
        | PyVal.str s =>
          loadItems path (p.setAttr key r.field)
            (msgs ++ r.msgs ++
              [warningMsg ("The given value is invalid for the cooresponding field:" ++
                "\n\tfield: " ++ key ++ "\n\tvalue: " ++ s)]) rest
        | _ =>
          LoadResult.mk p false
            (msgs ++ r.msgs ++ [errorMsg ("Failed to read the profile from " ++ path)])
    | Option.none =>
      loadItems path p (msgs ++ [warningMsg ("Unrecognized field in profile: " ++ key)]) rest

/-- `load_profile(path)`: construct `Profile()` over the shared class
attributes, then apply the parsed document key by key; a document that fails
to parse (`doc = none`) emits the load-failure error and yields no Profile. -/
def load_profile (path : String) (classAttrs : ProfileFields)
    (doc : Option (List (String × PyVal))) : LoadResult :=
  match doc with
  | Option.none =>
    LoadResult.mk (Profile.new classAttrs) false
      [errorMsg ("Failed to read the profile from " ++ path)]
  | some items => loadItems path (Profile.new classAttrs) [] items

/-- The line the interactive controller runs when the device row is chosen:
`profile.device.set(app.get_device(...))`, where `get_device` returns either
a device path or `None` (cancellation). -/
def interactiveDeviceUpdate (device : Field) (selected : Option String) : Field :=
  (device.set (match selected with
    | some s => PyVal.str s
    | Option.none => PyVal.none)).field

/-- Geometry computed by `CursesApp.__init__`: `self.lines`, `self.cols`
(the bordered window the program draws in; the spec calls these
`innerLines`/`innerCols`) and the window origin. -/
structure Geometry where
  lines : Nat
  cols : Nat
  line_origin : Nat
  col_origin : Nat
deriving DecidableEq

/-- `self.min_lines` in `CursesApp.__init__`. -/
def min_lines : Nat := 12

/-- `self.min_cols` in `CursesApp.__init__`. -/
def min_cols : Nat := 44

/-- `self.max_border_lines` in `CursesApp.__init__`. -/
def max_border_lines : Nat := 3

/-- `self.max_border_cols` in `CursesApp.__init__`. -/
def max_border_cols : Nat := 10

/-- The geometry check and computation of `CursesApp.__init__` from the
terminal size: `none` models the early return with `good` still false
(terminal below the 12 by 44 minimum), `some g` models a successful
initialization with `good = true`. -/
def initGeometry (LINES COLS : Nat) : Option Geometry :=
  if LINES < min_lines ∨ COLS < min_cols then
    Option.none
  else
    let lines := if LINES > max_border_lines * 2 + min_lines
      then LINES - max_border_lines * 2 else min_lines
    let cols := if COLS > max_border_cols * 2 + min_cols
      then COLS - max_border_cols * 2 else min_cols
    some (Geometry.mk lines cols ((LINES - lines) / 2) ((COLS - cols) / 2))

/-- The keys `CursesApp.select` distinguishes: `j`/`KEY_DOWN`, `k`/`KEY_UP`,
`q`, `;`/newline, and anything else (which shows the help overlay). -/
inductive Key
  | down
  | up
  | quit
  | confirm
  | other
deriving DecidableEq

/-- Outcome of one pass of the `select` loop: keep looping with a new cursor,
or return (`done none` models `return None`, `done (some i)` returns index `i`). -/
inductive StepRes
  | cont (cursor : Int)
  | done (result : Option Int)
deriving DecidableEq

/-- The clamping applied after a cursor move:
`max(cursor_index, 0)` then `min(cursor_index, len(items) - 1)`. -/
def clampCursor (n : Nat) (c : Int) : Int :=
  min (max c 0) ((n : Int) - 1)

/-- Python `items[i]` (negative indices count from the end; the loop
invariant keeps the cursor in range, out-of-range reads default to `""`). -/
def pyIndex (items : List String) (i : Int) : String :=
  let j := if i < 0 then i + items.length else i
  items.getD j.toNat ""

/-- One iteration of the key handling in `CursesApp.select`.  Down and up
move the cursor and fall through to the clamp; `q` returns `None`; confirm
runs the validator on the highlighted item and returns the index on success
and `None` on failure; any other key shows the help overlay and continues
without touching the cursor (the `continue` skips the clamp). -/
def selectStep (items : List String) (validator : Validator) (cursor : Int) :
    Key → StepRes
  | Key.down => StepRes.cont (clampCursor items.length (cursor + 1))
  | Key.up => StepRes.cont (clampCursor items.length (cursor - 1))
  | Key.quit => StepRes.done Option.none
  | Key.confirm =>
    if (validator (pyIndex items cursor)).1 then
      StepRes.done (some cursor)
    else
      StepRes.done Option.none
  | Key.other => StepRes.cont cursor

/-- The `select` loop run on a finite script of keys; with no key left the
loop is blocked in `getkey` and the current cursor is reported. -/
def runSelect (items : List String) (validator : Validator) :
    Int → List Key → StepRes
  | cursor, [] => StepRes.cont cursor
  | cursor, k :: ks =>
    match selectStep items validator cursor k with
    | StepRes.cont c => runSelect items validator c ks
    | StepRes.done r => StepRes.done r

/-- The `select` loop, additionally counting how many times the frame was
drawn (each iteration clears, redraws and refreshes the window once before
blocking on the next key). -/
def selectLoop (items : List String) (validator : Validator) :
    Int → List Key → Nat → StepRes × Nat
  | cursor, [], draws => (StepRes.cont cursor, draws + 1)
  | cursor, k :: ks, draws =>
    match selectStep items validator cursor k with
    | StepRes.cont c => selectLoop items validator c ks (draws + 1)
    | StepRes.done r => (StepRes.done r, draws + 1)

/-- Observable outcome of a call to `CursesApp.select`: the result, the
messages it emitted itself, and how many frames it drew.  (Messages drained
from the log during rendering are not modelled; no claim depends on them.) -/
structure SelectRun where
  outcome : StepRes
  msgs : List Message
  draws : Nat
deriving DecidableEq

/-- `CursesApp.select`: with an empty item list it emits the
"Not enough items" error and returns `None` before the draw loop;
otherwise it enters the draw loop. -/
def select (items : List String) (validator : Validator)
    (cursor_index : Int) (keys : List Key) : SelectRun :=
  if items.length ≤ 0 then
    SelectRun.mk (StepRes.done Option.none)
      [errorMsg "Not enough items given to select from"] 0
  else
    let r := selectLoop items validator cursor_index keys 0
    SelectRun.mk r.1 [] r.2

/-- The terminal-session state tracked by `CursesApp`: the `good` and
`clean` flags, and how many times the terminal settings (keypad, cursor,
echo, line buffering) have been restored. -/
structure CursesAppState where
  good : Bool
  clean : Bool
  restores : Nat
deriving DecidableEq

/-- `CursesApp.cleanup`: always clears `good`; restores the terminal and
sets `clean` only when `clean` is still false. -/
def cleanup (s : CursesAppState) : CursesAppState :=
  if s.clean = false then
    CursesAppState.mk false true (s.restores + 1)
  else
    { s with good := false }

/-- The session state right after `CursesApp.__init__` sets
`self.good = False; self.clean = False` and registers `cleanup` with atexit. -/
def freshSession : CursesAppState := CursesAppState.mk false false 0

/-! ### Helper lemmas -/

theorem numeric_false_error (s : String) (h : (Field.numeric_validator s).1 = false) :
    ∃ m ∈ (Field.numeric_validator s).2, m.level = Message_Level.error := by
  simp only [Field.numeric_validator] at h ⊢
  split_ifs at h ⊢
  exact ⟨_, List.mem_singleton_self _, rfl⟩

theorem boot_label_false_error (s : String)
    (h : (Field.boot_label_validator s).1 = false) :
    ∃ m ∈ (Field.boot_label_validator s).2, m.level = Message_Level.error := by
  simp only [Field.boot_label_validator] at h ⊢
  split_ifs at h ⊢ <;>
    exact ⟨_, List.mem_singleton_self _, rfl⟩

theorem hostname_false_error (s : String)
    (h : (Field.hostname_validator s).1 = false) :
    ∃ m ∈ (Field.hostname_validator s).2, m.level = Message_Level.error := by
  simp only [Field.hostname_validator] at h ⊢
  split_ifs at h ⊢ <;>
    exact ⟨_, List.mem_singleton_self _, rfl⟩

theorem name_false_error (s : String)
    (h : (Field.name_validator s).1 = false) :
    ∃ m ∈ (Field.name_validator s).2, m.level = Message_Level.error := by
  simp only [Field.name_validator] at h ⊢
  split_ifs at h ⊢ <;>
    exact ⟨_, List.mem_singleton_self _, rfl⟩

theorem password_false_error (s : String)
    (h : (Field.password_validator s).1 = false) :
    ∃ m ∈ (Field.password_validator s).2, m.level = Message_Level.error := by
  simp only [Field.password_validator] at h ⊢
  split_ifs at h ⊢ <;>
    exact ⟨_, List.mem_singleton_self _, rfl⟩

theorem numeric_validator_fst (s : String) :
    (Field.numeric_validator s).1 = pyIsNumeric s := by
  simp only [Field.numeric_validator]
  cases h : pyIsNumeric s <;> simp [h]

/-- Claim C1 (the code diverges from it): `dump_profile` serializes nothing.
The `Profile` dataclass declares its attributes without type annotations, so
it has no dataclass fields, `asdict` yields the empty mapping, and the dumped
document is empty for every profile — in particular the hostname key is
absent, so no field is serialized keyed by its name and a non-default value
can never be recovered from the dumped document. -/
theorem dump_profile_empty :
    (∀ p : ProfileFields, dump_profile p = []) ∧
    (dump_profile defaultProfileFields).lookup "hostname" = Option.none :=
  ⟨fun _ => rfl, rfl⟩

/-- Claim C3: `Field.set` runs the validator on the string form of the
candidate; its boolean result is the validator's verdict and its messages
are the validator's messages; on success the value is stored; on failure
the field is unchanged — so a Field never holds a value that failed
validation — and each of the program's validators emits an error-level
Message naming the failed constraint whenever it rejects (the default
validator never rejects). -/
theorem field_set_contract :
    (∀ (f : Field) (v : PyVal),
      (f.set v).ok = (f.validator (pyStr v)).1 ∧
      (f.set v).msgs = (f.validator (pyStr v)).2 ∧
      ((f.validator (pyStr v)).1 = true → (f.set v).field.value = v) ∧
      ((f.validator (pyStr v)).1 = false → (f.set v).field = f)) ∧
    (∀ s, Field.default_validator s = (true, [])) ∧
    (∀ s, (Field.numeric_validator s).1 = false →
      ∃ m ∈ (Field.numeric_validator s).2, m.level = Message_Level.error) ∧
    (∀ s, (Field.boot_label_validator s).1 = false →
      ∃ m ∈ (Field.boot_label_validator s).2, m.level = Message_Level.error) ∧
    (∀ s, (Field.hostname_validator s).1 = false →
      ∃ m ∈ (Field.hostname_validator s).2, m.level = Message_Level.error) ∧
    (∀ s, (Field.name_validator s).1 = false →
      ∃ m ∈ (Field.name_validator s).2, m.level = Message_Level.error) ∧
    (∀ s, (Field.password_validator s).1 = false →
      ∃ m ∈ (Field.password_validator s).2, m.level = Message_Level.error) := by
  refine ⟨?_, fun _ => rfl, numeric_false_error, boot_label_false_error,
    hostname_false_error, name_false_error, password_false_error⟩
  intro f v
  cases h : (f.validator (pyStr v)).1 <;>
    simp [Field.set, h]

/-- Claim C3 (witness): setting `"My-Host"` on the hostname field leaves the
field unchanged, and the hostname validator emitted an error-level message. -/
theorem field_set_contract_witness :
    (defaultProfileFields.hostname.set (PyVal.str "My-Host")).field
        = defaultProfileFields.hostname ∧
      ∃ m ∈ (Field.hostname_validator "My-Host").2, m.level = Message_Level.error := by
  constructor
  · exact (field_set_contract.1 defaultProfileFields.hostname
      (PyVal.str "My-Host")).2.2.2 (by decide)
  · exact field_set_contract.2.2.2.2.1 "My-Host" (by decide)

/-- Claim C4: `Profile` has only class-attribute fields (a dataclass with no
annotated fields), so constructing a `Profile()` copies nothing: every
instance is a view of the shared class state, and after `load_profile` has
mutated the shared hostname field to `node1`, a freshly constructed Profile
reports `node1` rather than the documented construction-time default `arch`. -/
theorem profile_fields_shared :
    (∀ s : ProfileFields, Profile.new s = s) ∧
    (Profile.new (load_profile "profile.json" defaultProfileFields
        (some [("hostname", PyVal.str "node1")])).fields).hostname.value
      = PyVal.str "node1" ∧
    (Profile.new defaultProfileFields).hostname.value = PyVal.str "arch" ∧
    (Profile.new (load_profile "profile.json" defaultProfileFields
        (some [("hostname", PyVal.str "node1")])).fields).hostname.value
      ≠ PyVal.str "arch" :=
  ⟨fun _ => rfl, by decide, by decide, by decide⟩

/-- Claim C5 (counterexample): the claim "true iff every character is a
decimal digit" fails at the empty string: every character of `""` is
(vacuously) a decimal digit, yet the numeric validator returns false
(Python's `isnumeric` requires at least one character). -/
theorem numeric_validator_counterexample :
    "".data.all Char.isDigit = true ∧ (Field.numeric_validator "").1 = false := by
  decide

/-- Claim C5 (amended): the numeric validator returns true iff the input is
non-empty and every character is a decimal digit (Python's `isnumeric`
demands at least one character; over the ASCII values the program handles,
numeric characters are exactly the decimal digits), and whenever it returns
false it emits an error-level Message naming the violated constraint. -/
theorem numeric_validator_amended :
    ∀ s : String,
      ((Field.numeric_validator s).1 = true ↔
        s.data ≠ [] ∧ s.data.all Char.isDigit = true) ∧
      ((Field.numeric_validator s).1 = false →
        ∃ m ∈ (Field.numeric_validator s).2, m.level = Message_Level.error) := by
  intro s
  refine ⟨?_, numeric_false_error s⟩
  rw [numeric_validator_fst]
  simp [pyIsNumeric, List.isEmpty_iff]

/-- Claim C5 (witness): the amended statement evaluated at `"123"`. -/
theorem numeric_validator_amended_witness :
    (Field.numeric_validator "123").1 = true :=
  (numeric_validator_amended "123").1.mpr (by decide)

/-- Claim C10: a Field built with the default validator accepts and stores
every value, `None` included; the device and time-zone fields use the
default validator; and the controller line run when a device selection is
cancelled, `profile.device.set(app.get_device(...))` with `get_device`
returning `None`, overwrites whatever device was stored with `None`, after
which `get_str` returns the empty string. -/
theorem device_field_set_none :
    (∀ (prior v : PyVal),
      ((Field.mk prior Field.default_validator).set v).ok = true ∧
      ((Field.mk prior Field.default_validator).set v).field.value = v) ∧
    defaultProfileFields.device.validator = Field.default_validator ∧
    defaultProfileFields.time_zone.validator = Field.default_validator ∧
    (∀ prior : PyVal,
      (interactiveDeviceUpdate (Field.mk prior Field.default_validator)
        Option.none).value = PyVal.none ∧
      (interactiveDeviceUpdate (Field.mk prior Field.default_validator)
        Option.none).get_str = "") :=
  ⟨fun _ _ => ⟨rfl, rfl⟩, rfl, rfl, fun _ => ⟨rfl, rfl⟩⟩

theorem clampCursor_bounds (n : Nat) (c : Int) (hn : 1 ≤ n) :
    0 ≤ clampCursor n c ∧ clampCursor n c ≤ (n : Int) - 1 := by
  unfold clampCursor
  exact ⟨le_min (le_max_right c 0) (by omega), min_le_right _ _⟩

theorem runSelect_cont_bounds (items : List String) (validator : Validator) :
    ∀ (keys : List Key) (cursor c : Int), 1 ≤ items.length →
      0 ≤ cursor → cursor ≤ (items.length : Int) - 1 →
      runSelect items validator cursor keys = StepRes.cont c →
      0 ≤ c ∧ c ≤ (items.length : Int) - 1 := by
  intro keys
  induction keys with
  | nil =>
    intro cursor c hn h0 h1 h
    simp only [runSelect] at h
    injection h with hc
    subst hc
    exact ⟨h0, h1⟩
  | cons k ks ih =>
    intro cursor c hn h0 h1 h
    cases k with
    | down =>
      simp only [runSelect, selectStep] at h
      have hb := clampCursor_bounds items.length (cursor + 1) hn
      exact ih _ _ hn hb.1 hb.2 h
    | up =>
      simp only [runSelect, selectStep] at h
      have hb := clampCursor_bounds items.length (cursor - 1) hn
      exact ih _ _ hn hb.1 hb.2 h
    | quit =>
      simp only [runSelect, selectStep] at h
      exact StepRes.noConfusion h
    | confirm =>
      simp only [runSelect, selectStep] at h
      split_ifs at h
    | other =>
      simp only [runSelect, selectStep] at h
      exact ih _ _ hn h0 h1 h

/-- Claim C6: for a 12-line, 44-column terminal initialization succeeds with
window size exactly 12 by 44 (the minimum path); every successful
initialization satisfies `lines ≥ 10` and `cols ≥ 44`; and a terminal
smaller than 12 by 44 in either dimension makes initialization report
not-ready (`good` stays false, no window geometry is computed or drawn). -/
theorem viewport_geometry :
    initGeometry 12 44 = some (Geometry.mk 12 44 0 0) ∧
    (∀ L C g, initGeometry L C = some g → 10 ≤ g.lines ∧ 44 ≤ g.cols) ∧
    (∀ L C, L < 12 ∨ C < 44 → initGeometry L C = Option.none) := by
  refine ⟨by decide, ?_, ?_⟩
  · intro L C g h
    simp only [initGeometry, min_lines, min_cols, max_border_lines, max_border_cols] at h
    split_ifs at h
    all_goals
      injection h with hg
      subst hg
      dsimp only
      constructor <;> omega
  · intro L C h
    simp only [initGeometry, min_lines, min_cols]
    rw [if_pos h]

/-- Claim C6 (witness): an 11-line terminal fails initialization. -/
theorem viewport_geometry_witness :
    initGeometry 11 44 = Option.none :=
  viewport_geometry.2.2 11 44 (Or.inl (by decide))

/-- Claim C7: with a non-empty item list and the cursor in `[0, N-1]`, a
down key moves the cursor to `min (cursor+1) (N-1)` and an up key to
`max (cursor-1) 0` — clamped, no wraparound — and across any number of loop
iterations a still-looping cursor remains within `[0, N-1]`. -/
theorem select_cursor_navigation :
    ∀ (items : List String) (validator : Validator) (cursor : Int),
      items ≠ [] → 0 ≤ cursor → cursor ≤ (items.length : Int) - 1 →
      selectStep items validator cursor Key.down
          = StepRes.cont (min (cursor + 1) ((items.length : Int) - 1)) ∧
      selectStep items validator cursor Key.up
          = StepRes.cont (max (cursor - 1) 0) ∧
      ∀ (keys : List Key) (c : Int),
        runSelect items validator cursor keys = StepRes.cont c →
        0 ≤ c ∧ c ≤ (items.length : Int) - 1 := by
  intro items validator cursor hne h0 h1
  have hn : 1 ≤ items.length := List.length_pos.mpr hne
  refine ⟨?_, ?_,
    fun keys c h => runSelect_cont_bounds items validator keys cursor c hn h0 h1 h⟩
  · simp only [selectStep, clampCursor]
    congr 1
    omega
  · simp only [selectStep, clampCursor]
    congr 1
    omega

/-- Claim C7 (witness): two items, cursor at 0, a down key lands on index 1. -/
theorem select_cursor_navigation_witness :
    selectStep ["a", "b"] Field.default_validator 0 Key.down = StepRes.cont 1 := by
  have h := select_cursor_navigation ["a", "b"] Field.default_validator 0
    (by decide) (by decide) (by decide)
  exact h.1.trans (by decide)

/-- Claim C8: `select` called with an empty item list returns `None`,
emits the "Not enough items" error, and draws nothing before returning. -/
theorem select_empty_items :
    ∀ (validator : Validator) (cursor : Int) (keys : List Key),
      (select [] validator cursor keys).outcome = StepRes.done Option.none ∧
      (select [] validator cursor keys).draws = 0 ∧
      (select [] validator cursor keys).msgs
        = [errorMsg "Not enough items given to select from"] :=
  fun _ _ _ => ⟨rfl, rfl, rfl⟩

theorem cleanup_of_clean (s : CursesAppState) (h : s.clean = true) :
    cleanup s = { s with good := false } := by
  simp [cleanup, h]

theorem cleanup_iter_clean (n : Nat) :
    ∀ s : CursesAppState, s.clean = true →
      (cleanup^[n] s).restores = s.restores ∧ (cleanup^[n] s).clean = true := by
  induction n with
  | zero => intro s h; exact ⟨rfl, h⟩
  | succ m ih =>
    intro s h
    rw [Function.iterate_succ_apply, cleanup_of_clean s h]
    exact ih _ h

/-- Claim C9: `cleanup` is idempotent — a second call changes nothing — and
starting from any session whose `clean` flag is still false (as set by
`__init__`), any positive number of `cleanup` calls restores the terminal
settings exactly once. -/
theorem cleanup_idempotent :
    (∀ s, cleanup (cleanup s) = cleanup s) ∧
    (∀ (s : CursesAppState) (n : Nat), s.clean = false →
      (cleanup^[n + 1] s).restores = s.restores + 1 ∧
      (cleanup^[n + 1] s).clean = true) := by
  constructor
  · intro s
    by_cases h : s.clean = false
    · simp [cleanup, h]
    · simp [cleanup, h]
  · intro s n h
    rw [Function.iterate_succ_apply]
    have hc : cleanup s = CursesAppState.mk false true (s.restores + 1) := by
      simp [cleanup, h]
    rw [hc]
    exact cleanup_iter_clean n _ rfl

/-- Claim C9 (witness): three cleanup calls on a fresh session restore the
terminal exactly once. -/
theorem cleanup_idempotent_witness :
    (cleanup^[3] freshSession).restores = freshSession.restores + 1 ∧
    (cleanup^[3] freshSession).clean = true :=
  cleanup_idempotent.2 freshSession 2 rfl

end AutoArch
